import Mathlib

/-!
# Verification of the csv-to-PDF invoice generator

A shallow embedding of the repository's core logic:

* the fee calculator (`src/calculator.ts`, `src/config.ts`,
  `src/csvParser.ts`): banded RVG fee, expense/outlay subtotals, net and
  gross totals with VAT, and field validation;
* the letterhead composition (`pdfGenerator.ts`): stamping each generated
  content page onto the matching letterhead page, with graceful
  pass-through in `savePDF` when the letterhead is missing or undecodable.

Monetary values are modelled as rationals.  `round2` is the model of
JavaScript `parseFloat(x.toFixed(2))`: rounding to the nearest multiple of
`1/100`, ties going to the larger candidate, exactly as ECMAScript
`Number.prototype.toFixed` specifies.
-/

namespace CsvToPdf

/-- Model of `parseFloat(x.toFixed(2))`: round to the nearest multiple of
`1/100`; on a tie ECMAScript picks the larger candidate, i.e. the tie goes
towards `+∞`. -/
def round2 (x : ℚ) : ℚ := (⌊x * 100 + 1 / 2⌋ : ℚ) / 100

/-! ## Configuration (`src/config.ts`) -/

/-- Source `GeneratorConfig` (src/types.ts). -/
structure GeneratorConfig where
  inputCsv : String
  htmlTemplate : String
  briefheadPdf : String
  outputDir : String
  csvSeparator : String
  taxRate : ℚ

/-- Source `config` (src/config.ts). -/
def config : GeneratorConfig :=
  { inputCsv := "beispieldaten.csv"
    htmlTemplate := "invoice_template.html"
    briefheadPdf := "briefkopf.pdf"
    outputDir := "output"
    csvSeparator := ";"
    taxRate := 0.19 }

/-- The record type of `defaultCalculationValues` (src/config.ts). -/
structure DefaultCalculationValues where
  verfahrensgebuehr : ℚ
  terminsgebuehr : ℚ
  einigungsgebuehr : ℚ
  auslagenpauschale : ℚ
  kopien : ℚ
  telekommunikation : ℚ
  gerichtskosten : ℚ

/-- Source `defaultCalculationValues` (src/config.ts). -/
def defaultCalculationValues : DefaultCalculationValues :=
  { verfahrensgebuehr := 1332.60
    terminsgebuehr := 1229.64
    einigungsgebuehr := 307.41
    auslagenpauschale := 20.00
    kopien := 180.00
    telekommunikation := 120.00
    gerichtskosten := 450.00 }

/-! ## Calculator data model (`src/types.ts`) -/

/-- Source `Fees` (src/types.ts). -/
structure Fees where
  zweiKommaDreiGebuehr : ℚ
  verfahrensgebuehr : ℚ
  terminsgebuehr : ℚ
  einigungsgebuehr : ℚ
deriving DecidableEq

/-- Source `Expenses` (src/types.ts). -/
structure Expenses where
  pauschale : ℚ
  erhoehungsgebuehrOld : ℚ
deriving DecidableEq

/-- Source `CashExpenses` (src/types.ts). -/
structure CashExpenses where
  kopien : ℚ
  telekommunikation : ℚ
  gerichtskosten : ℚ
deriving DecidableEq

/-- Source `DisputeValue` (src/types.ts). -/
structure DisputeValue where
  einzelStreitwert : ℚ
deriving DecidableEq

/-- Source `InvoiceCalculations` (src/types.ts). -/
structure InvoiceCalculations where
  gesamtRechnungsbetragOld : ℚ
  proportionalerBetrag : ℚ
  erhoehungsgebuehrOld : ℚ
  summe1 : ℚ
  summe2 : ℚ
  summe3 : ℚ
  gesamtbetragNetto : ℚ
  mehrwertsteuer : ℚ
  gesamtbetragBrutto : ℚ
deriving DecidableEq

/-! ## Calculator functions (`src/calculator.ts`) -/

/-- Source `calculateDisputeValues` (src/calculator.ts line 43). -/
def calculateDisputeValues (streitwertKlage : ℚ) : DisputeValue :=
  { einzelStreitwert := streitwertKlage }

/-- The band factor computed inside `calculateFees`
(src/calculator.ts line 64): `Math.ceil((gesamtStreitwert - 500000) / 50000)`. -/
def bandFaktor (gesamtStreitwert : ℚ) : ℤ :=
  ⌈(gesamtStreitwert - 500000) / 50000⌉

/-- Source `calculateFees` (src/calculator.ts line 59):
`zweiKommaDreiGebuehr = (3539 + (faktor * 165)) * 2.3`, rounded to two
decimals via `toFixed(2)`; the remaining fees are configuration constants. -/
def calculateFees (gesamtStreitwert einzelStreitwert : ℚ) : Fees :=
  let faktor := bandFaktor gesamtStreitwert
  let zweiKommaDreiGebuehr : ℚ := (3539 + (faktor : ℚ) * 165) * 2.3
  { zweiKommaDreiGebuehr := round2 zweiKommaDreiGebuehr
    verfahrensgebuehr := defaultCalculationValues.verfahrensgebuehr
    terminsgebuehr := defaultCalculationValues.terminsgebuehr
    einigungsgebuehr := defaultCalculationValues.einigungsgebuehr }

/-- Source `calculateExpenses` (src/calculator.ts line 81): flat allowance plus
the surcharge `verfahrensgebuehr * 0.3`, rounded to two decimals. -/
def calculateExpenses (einzelStreitwert : ℚ) : Expenses :=
  let verfahrensgebuehr := defaultCalculationValues.verfahrensgebuehr
  let erhoehungsgebuehrOld := verfahrensgebuehr * 0.3
  { pauschale := defaultCalculationValues.auslagenpauschale
    erhoehungsgebuehrOld := round2 erhoehungsgebuehrOld }

/-- Source `getCashExpenses` (src/calculator.ts line 98). -/
def getCashExpenses : CashExpenses :=
  { kopien := defaultCalculationValues.kopien
    telekommunikation := defaultCalculationValues.telekommunikation
    gerichtskosten := defaultCalculationValues.gerichtskosten }

/-- Source `performInvoiceCalculations` (src/calculator.ts line 115): intermediate
sums, the two-step pre-tax accumulation, VAT and the gross total; every
returned field goes through `toFixed(2)`. -/
def performInvoiceCalculations (gebuehren : Fees) (auslagen : Expenses)
    (barauslagen : CashExpenses) (disputeValue : DisputeValue) :
    InvoiceCalculations :=
  let summe1 := gebuehren.zweiKommaDreiGebuehr
  let summe2 := auslagen.pauschale + auslagen.erhoehungsgebuehrOld
  let summe3 := barauslagen.kopien + barauslagen.telekommunikation +
    barauslagen.gerichtskosten
  let gesamtRechnungsbetragOld := summe1 + auslagen.pauschale
  let proportionalerBetrag := gesamtRechnungsbetragOld
  let gesamtbetragNetto := proportionalerBetrag + auslagen.erhoehungsgebuehrOld
  let mehrwertsteuer := gesamtbetragNetto * config.taxRate
  let gesamtbetragBrutto := gesamtbetragNetto + mehrwertsteuer
  { gesamtRechnungsbetragOld := round2 gesamtRechnungsbetragOld
    proportionalerBetrag := round2 proportionalerBetrag
    erhoehungsgebuehrOld := auslagen.erhoehungsgebuehrOld
    summe1 := round2 summe1
    summe2 := round2 summe2
    summe3 := round2 summe3
    gesamtbetragNetto := round2 gesamtbetragNetto
    mehrwertsteuer := round2 mehrwertsteuer
    gesamtbetragBrutto := round2 gesamtbetragBrutto }

/-! ## CSV parsing model (`src/csvParser.ts`) -/

/-- Model of a numeric CSV cell in German number format
(src/csvParser.ts `parseGermanNumber`): the string is represented by its
parse outcome — either the normalisation (drop thousand dots, decimal
comma to dot) parses to a rational, or the cell is empty/unparseable. -/
inductive NumStr where
  | parsed (q : ℚ)
  | malformed
deriving DecidableEq

/-- Source `parseGermanNumber` (src/csvParser.ts line 12): parse the normalised
string; an empty, non-string or unparseable value falls back to `0`
(`return parseFloat(normalized) || 0`). -/
def parseGermanNumber : NumStr → ℚ
  | .parsed q => q
  | .malformed => 0

/-- First-occurrence string replacement, as JavaScript
`String.prototype.replace` with a plain-string pattern. -/
def replaceFirst (s pat rep : String) : String :=
  match s.splitOn pat with
  | x :: y :: rest => x ++ rep ++ String.intercalate pat (y :: rest)
  | _ => s

/-- JavaScript `String.prototype.padStart` with a single pad character. -/
def padStart (s : String) (n : Nat) (c : Char) : String :=
  String.mk (List.replicate (n - s.length) c) ++ s

/-- Source `CSVRawData` (src/types.ts): one CSV row after trimming.  String cells
stay strings (`""` models a missing/falsy value); German-format numeric
cells are `NumStr`.  Lean field names transliterate the CSV column names. -/
structure CSVRawData where
  lfNr : String
  azTilp : String
  anrede : String
  vorname1 : String
  nachname1 : String
  anrede2 : String
  vorname2 : String
  nachname2 : String
  anrede3 : String
  vorname3 : String
  nachname3 : String
  strasse : String
  plz : String
  ort : String
  land : String
  streitwertKlage : NumStr
  gesamtstreitwert : NumStr
  gesamtrechnungsbetrag : NumStr
  anteil : NumStr
  einzelrechnungsbetrag : NumStr
  erhoehungsgebuehrCsv : NumStr
  zwischensumme : NumStr
  umsatzsteuer : NumStr
  summa : NumStr
  rechnungsnummer : String
  erbengemeinschaftZahl : String
  erbengemeinschaftNamen : String

/-- Source `buildRecipientName` (src/csvParser.ts line 82). -/
def buildRecipientName (data : CSVRawData) : String :=
  let part1 : List String :=
    if data.vorname1 ≠ "" ∧ data.nachname1 ≠ "" then
      let title1 := if data.vorname1.startsWith "Dr." then "Dr." else ""
      let firstName1 := (replaceFirst data.vorname1 "Dr." "").trim
      let nachname1 :=
        (if data.nachname1.startsWith "c/o" then "\n" else "") ++ data.nachname1
      [(title1 ++ " " ++ firstName1 ++ " " ++ nachname1).trim]
    else []
  let part2 : List String :=
    if data.vorname2 ≠ "" ∧ data.nachname2 ≠ "" then
      let title2 := if data.vorname2.startsWith "Dr." then "Dr." else ""
      let firstName2 := (replaceFirst data.vorname2 "Dr." "").trim
      [(title2 ++ " " ++ firstName2 ++ " " ++ data.nachname2).trim]
    else []
  let part3 : List String :=
    if data.vorname3 ≠ "" ∧ data.nachname3 ≠ "" then
      let title3 := if data.vorname3.startsWith "Dr." then "Dr." else ""
      let firstName3 := (replaceFirst data.vorname3 "Dr." "").trim
      [(title3 ++ " " ++ firstName3 ++ " " ++ data.nachname3).trim]
    else []
  let parts := part1 ++ part2 ++ part3
  if parts.length = 2 then
    parts.getD 0 "" ++ " und " ++ parts.getD 1 ""
  else if parts.length = 3 then
    parts.getD 0 "" ++ ", " ++ parts.getD 1 "" ++ " und " ++ parts.getD 2 ""
  else
    String.intercalate " und " parts

/-- Source `buildAnrede` (src/csvParser.ts line 129).  The source checks
`anrede1 && anrede2` twice, so the two-recipient branch is unreachable;
the embedding keeps that structure. -/
def buildAnrede (data : CSVRawData) : String :=
  let anrede1 := data.anrede
  let anrede2 := data.anrede2
  let anrede3 := data.anrede3
  if anrede1 ≠ "" ∧ anrede2 ≠ "" then
    anrede1 ++ ", " ++ anrede2 ++ " und " ++ anrede3
  else if anrede1 ≠ "" ∧ anrede2 ≠ "" then
    anrede1 ++ " und " ++ anrede2
  else
    anrede1

/-! ## Sender/case configuration used by `calculateInvoiceData` -/

/-- Source `SenderInfo` (src/types.ts). -/
structure SenderInfo where
  senderName : String
  senderStreet : String
  senderZipCity : String
  ustId : String
  iban : String
  unterschrift : String

/-- Source `senderInfo` (src/config.ts). -/
def senderInfo : SenderInfo :=
  { senderName := "Rechtsanwalt Max Mustermann"
    senderStreet := "Musterstrasse 1"
    senderZipCity := "76131 Karlsruhe"
    ustId := "DE123456789"
    iban := "DE89 3704 0044 0532 0130 00"
    unterschrift := "Max Mustermann" }

/-- The `Partial<CaseDetails>` constant `caseDetails` (config.ts of the
repository; the fields the calculator reads). -/
structure CaseDetailsConst where
  leistungszeit : String
  gzNumber : String
  partei1 : String
  partei2 : String

/-- Source `caseDetails` (config.ts). -/
def caseDetails : CaseDetailsConst :=
  { leistungszeit := "06.03.-25.11.2025"
    gzNumber := "SH 072/25"
    partei1 := "Dipl.-Kfm. Ebert u.a."
    partei2 := "Dr. Braun u.a." }

/-- Source `getCountryName` (src/calculator.ts line 20): map a country code to a
display name; Germany (`D`/`DE`) and unknown codes give `null`. -/
def getCountryName (countryCode : String) : Option String :=
  let code := countryCode.trim.toUpper
  if code = "CH" then some "Schweiz"
  else if code = "AT" then some "Österreich"
  else if code = "PT" then some "Portugal"
  else if code = "BG" then some "Bulgarien"
  else if code = "LU" then some "Luxemburg"
  else none

/-- Source `InvoiceData` (src/types.ts): the flattened record handed to the
template; `Option` models fields set to `undefined`. -/
structure InvoiceData where
  senderName : String
  senderStreet : String
  senderZipCity : String
  ustId : String
  iban : String
  unterschrift : String
  empfaengerAnrede : String
  name : String
  strasse : String
  plz : String
  ort : String
  land : String
  landName : Option String
  gesamtStreitwert : ℚ
  gesamtRechnungsbetrag : ℚ
  anteil : ℚ
  einzelRechnungsbetrag : ℚ
  erhoehungsgebuehr : ℚ
  zwischensumme : ℚ
  umsatzsteuer : ℚ
  summa : ℚ
  rechnungsNummer : String
  datum : String
  gzNumber : String
  azTilp : Option String
  leistungszeit : String
  mandant : String
  partei1 : String
  partei2 : String
  lfNr : String
  nachname1 : String
  nachname2 : Option String
  nachname3 : Option String
  hasSecondRecipient : Bool
  hasThirdRecipient : Bool
  einzelStreitwert : ℚ
  gebuehren : Fees
  auslagen : Expenses
  barauslagen : CashExpenses
  gesamtRechnungsbetragOld : ℚ
  proportionalerBetrag : ℚ
  erhoehungsgebuehrOld : ℚ
  summe1 : ℚ
  summe2 : ℚ
  summe3 : ℚ
  gesamtbetragNetto : ℚ
  mehrwertsteuer : ℚ
  gesamtbetragBrutto : ℚ

/-- Source `calculateInvoiceData` (src/calculator.ts line 161): parse the numeric
cells, run the fee pipeline and assemble the full template record. -/
def calculateInvoiceData (csvData : CSVRawData) : InvoiceData :=
  let streitwertKlage := parseGermanNumber csvData.streitwertKlage
  let gesamtStreitwert := parseGermanNumber csvData.gesamtstreitwert
  let gesamtRechnungsbetrag := parseGermanNumber csvData.gesamtrechnungsbetrag
  let anteil := parseGermanNumber csvData.anteil
  let einzelRechnungsbetrag := parseGermanNumber csvData.einzelrechnungsbetrag
  let erhoehungsgebuehr := parseGermanNumber csvData.erhoehungsgebuehrCsv
  let zwischensumme := parseGermanNumber csvData.zwischensumme
  let umsatzsteuer := parseGermanNumber csvData.umsatzsteuer
  let summa := parseGermanNumber csvData.summa
  let disputeValue := calculateDisputeValues streitwertKlage
  let gebuehren := calculateFees disputeValue.einzelStreitwert disputeValue.einzelStreitwert
  let auslagen := calculateExpenses disputeValue.einzelStreitwert
  let barauslagen := getCashExpenses
  let calculations := performInvoiceCalculations gebuehren auslagen barauslagen disputeValue
  { senderName := senderInfo.senderName
    senderStreet := senderInfo.senderStreet
    senderZipCity := senderInfo.senderZipCity
    ustId := senderInfo.ustId
    iban := senderInfo.iban
    unterschrift := senderInfo.unterschrift
    empfaengerAnrede := buildAnrede csvData
    name := buildRecipientName csvData
    strasse := csvData.strasse
    plz := csvData.plz
    ort := csvData.ort
    land := csvData.land
    landName := getCountryName csvData.land
    gesamtStreitwert := gesamtStreitwert
    gesamtRechnungsbetrag := gesamtRechnungsbetrag
    anteil := anteil
    einzelRechnungsbetrag := einzelRechnungsbetrag
    erhoehungsgebuehr := erhoehungsgebuehr
    zwischensumme := zwischensumme
    umsatzsteuer := umsatzsteuer
    summa := summa
    rechnungsNummer := padStart csvData.rechnungsnummer 4 '0' ++ "/26"
    datum := "2. Januar 2026"
    gzNumber := caseDetails.gzNumber
    azTilp := if csvData.azTilp ≠ "" then some csvData.azTilp else none
    leistungszeit := caseDetails.leistungszeit
    mandant := buildRecipientName csvData
    partei1 := caseDetails.partei1
    partei2 := caseDetails.partei2
    lfNr := csvData.lfNr
    nachname1 := csvData.nachname1
    nachname2 := if csvData.nachname2 ≠ "" then some csvData.nachname2 else none
    nachname3 := if csvData.nachname3 ≠ "" then some csvData.nachname3 else none
    hasSecondRecipient := csvData.vorname2 != "" && csvData.nachname2 != ""
    hasThirdRecipient := csvData.vorname3 != "" && csvData.nachname3 != ""
    einzelStreitwert := disputeValue.einzelStreitwert
    gebuehren := gebuehren
    auslagen := auslagen
    barauslagen := barauslagen
    gesamtRechnungsbetragOld := calculations.gesamtRechnungsbetragOld
    proportionalerBetrag := calculations.proportionalerBetrag
    erhoehungsgebuehrOld := calculations.erhoehungsgebuehrOld
    summe1 := calculations.summe1
    summe2 := calculations.summe2
    summe3 := calculations.summe3
    gesamtbetragNetto := calculations.gesamtbetragNetto
    mehrwertsteuer := calculations.mehrwertsteuer
    gesamtbetragBrutto := calculations.gesamtbetragBrutto }

/-- Source `validateInvoiceData`'s required-field list (src/calculator.ts
line 252). -/
def requiredFields : List String :=
  ["name", "strasse", "plz", "ort", "gesamtbetragBrutto", "datum"]

/-- JavaScript truthiness of `invoiceData[field]` for the fields
`validateInvoiceData` checks: a string is falsy iff empty; a number is
falsy iff `0`. -/
def fieldTruthy (d : InvoiceData) : String → Bool
  | "name" => d.name != ""
  | "strasse" => d.strasse != ""
  | "plz" => d.plz != ""
  | "ort" => d.ort != ""
  | "gesamtbetragBrutto" => d.gesamtbetragBrutto != 0
  | "datum" => d.datum != ""
  | _ => true

/-- Source `validateInvoiceData` (src/calculator.ts line 251): walk the required
fields in order and throw on the first falsy one, else return `true`. -/
def validateInvoiceData (invoiceData : InvoiceData) : Except String Bool :=
  match requiredFields.find? (fun field => ! fieldTruthy invoiceData field) with
  | some field => .error ("Missing required field: " ++ field)
  | none => .ok true

/-! ## Letterhead composition (`pdfGenerator.ts`) -/

/-- A page of a PDF document: either an original page (its drawable
content abstracted to an identifier) or a page built by
`stampPDFOnBriefhead` — sized like its letterhead background, with the
letterhead drawn first and the content page drawn on top. -/
inductive Page where
  | base (width height : ℚ) (id : ℕ)
  | stamped (width height : ℚ) (bg fg : Page)
deriving DecidableEq

instance : Inhabited Page := ⟨.base 0 0 0⟩

/-- Intrinsic page width (`page.getWidth()` / embedded page `width`). -/
def Page.width : Page → ℚ
  | .base w _ _ => w
  | .stamped w _ _ _ => w

/-- Intrinsic page height. -/
def Page.height : Page → ℚ
  | .base _ h _ => h
  | .stamped _ h _ _ => h

/-- A byte buffer: either a well-formed PDF, identified with the page list
it decodes to, or undecodable bytes. -/
inductive Buffer where
  | pdf (pages : List Page)
  | corrupt (id : ℕ)
deriving DecidableEq

/-- Source `PDFDocument.load`: decode a buffer, fatal on corrupt bytes. -/
def loadPDF : Buffer → Except String (List Page)
  | .pdf pages => .ok pages
  | .corrupt _ => .error "Failed to decode PDF document"

/-- The letterhead page selection of `stampPDFOnBriefhead`
(pdfGenerator.ts line 420):
`i === 0 ? 0 : Math.min(1, briefkopfPages.length - 1)`, computed in ℤ
because JavaScript's `length - 1` is `-1` on an empty page list. -/
def briefkopfPageIndex (i : ℕ) (briefkopfCount : ℕ) : ℤ :=
  if i = 0 then 0 else min 1 ((briefkopfCount : ℤ) - 1)

/-- JavaScript array indexing `pages[idx]`: `undefined` (here `none`) when
the index is negative or past the end. -/
def getPage? (pages : List Page) (idx : ℤ) : Option Page :=
  if idx < 0 then none else pages.get? idx.toNat

/-- One iteration body of the stamping loop (pdfGenerator.ts lines
428–449): create a page sized to the letterhead page, draw the letterhead
as background and the content page as foreground. -/
def stampPage (briefkopfTemplatePage generatedPage : Page) : Page :=
  .stamped briefkopfTemplatePage.width briefkopfTemplatePage.height
    briefkopfTemplatePage generatedPage

/-- The page loop of `stampPDFOnBriefhead` (pdfGenerator.ts lines
416–450), iterating the generated pages together with their index `i`;
a missing letterhead page at the selected index throws. -/
def stampPagesGo (briefkopfPages : List Page) : ℕ → List Page → Except String (List Page)
  | _, [] => .ok []
  | i, generatedPage :: rest =>
    match getPage? briefkopfPages (briefkopfPageIndex i briefkopfPages.length) with
    | none =>
      .error ("Briefkopf PDF does not have a page at index " ++
        toString (briefkopfPageIndex i briefkopfPages.length))
    | some briefkopfTemplatePage => do
      let tail ← stampPagesGo briefkopfPages (i + 1) rest
      return stampPage briefkopfTemplatePage generatedPage :: tail

/-- Source `stampPDFOnBriefhead` (pdfGenerator.ts line 399): decode the
letterhead and the generated document, stamp every generated page onto its
letterhead page, and encode the resulting document. -/
def stampPDFOnBriefhead (generatedPdfBuffer briefheadBuffer : Buffer) :
    Except String Buffer := do
  let briefkopfPages ← loadPDF briefheadBuffer
  let generatedPages ← loadPDF generatedPdfBuffer
  let finalPages ← stampPagesGo briefkopfPages 0 generatedPages
  return Buffer.pdf finalPages

/-- Source `savePDF` (pdfGenerator.ts line 466), modelled as the buffer it
writes to disk: without stamping, or when the letterhead file is absent
(`fs.existsSync` false, modelled by `none`), the generated buffer is
written unchanged; when stamping throws, the catch block falls back to the
generated buffer. -/
def savePDF (generatedPdfBuffer : Buffer) (shouldStamp : Bool)
    (briefheadFile : Option Buffer) : Buffer :=
  if !shouldStamp then generatedPdfBuffer
  else
    match briefheadFile with
    | none => generatedPdfBuffer
    | some briefheadBuffer =>
      match stampPDFOnBriefhead generatedPdfBuffer briefheadBuffer with
      | .ok stampedPdfBuffer => stampedPdfBuffer
      | .error _ => generatedPdfBuffer

/-! ## Facts about the stamping loop -/

/-- The selected letterhead index as a natural number, valid whenever the
letterhead has at least one page. -/
def bkIdxNat (i : ℕ) (briefkopfCount : ℕ) : ℕ :=
  if i = 0 then 0 else min 1 (briefkopfCount - 1)

lemma bkIdxNat_lt {n : ℕ} (hn : 0 < n) (i : ℕ) : bkIdxNat i n < n := by
  unfold bkIdxNat
  split <;> omega

/-- On a non-empty letterhead the JavaScript page lookup always succeeds
and returns the page at `bkIdxNat i`. -/
lemma getPage?_sel {pages : List Page} (h : pages ≠ []) (i : ℕ) :
    getPage? pages (briefkopfPageIndex i pages.length) =
      some (pages.getD (bkIdxNat i pages.length) default) := by
  match pages, h with
  | a :: rest, _ =>
    rcases Nat.eq_zero_or_pos i with hi | hi
    · subst hi
      simp [briefkopfPageIndex, getPage?, bkIdxNat]
    · have hi0 : i ≠ 0 := Nat.pos_iff_ne_zero.mp hi
      cases rest with
      | nil =>
        simp [briefkopfPageIndex, getPage?, bkIdxNat, hi0]
      | cons b rest2 =>
        have hmin : min (1 : ℤ) (((a :: b :: rest2).length : ℤ) - 1) = 1 := by
          simp only [List.length_cons]
          push_cast
          omega
        have hminN : min 1 ((a :: b :: rest2).length - 1) = 1 := by
          simp only [List.length_cons]
          omega
        simp [briefkopfPageIndex, getPage?, bkIdxNat, hi0, hmin, hminN]

/-- The page list `stampPDFOnBriefhead` produces: page `j` of the content
is stamped onto the letterhead page selected for index `j`. -/
def stampedPages (briefkopfPages : List Page) : ℕ → List Page → List Page
  | _, [] => []
  | i, p :: rest =>
    stampPage (briefkopfPages.getD (bkIdxNat i briefkopfPages.length) default) p ::
      stampedPages briefkopfPages (i + 1) rest

lemma stampedPages_length (bk : List Page) :
    ∀ (c : List Page) (i : ℕ), (stampedPages bk i c).length = c.length := by
  intro c
  induction c with
  | nil => intro i; rfl
  | cons p rest ih =>
    intro i
    simp [stampedPages, ih]

lemma stampedPages_getD (bk : List Page) :
    ∀ (c : List Page) (i j : ℕ), j < c.length →
      (stampedPages bk i c).getD j default =
        stampPage (bk.getD (bkIdxNat (i + j) bk.length) default)
          (c.getD j default) := by
  intro c
  induction c with
  | nil => intro i j hj; simp at hj
  | cons p rest ih =>
    intro i j hj
    cases j with
    | zero => simp [stampedPages]
    | succ j =>
      have hj2 : j < rest.length := by simpa using hj
      have heq : i + 1 + j = i + (j + 1) := by omega
      have := ih (i + 1) j hj2
      rw [heq] at this
      simpa [stampedPages] using this

lemma stampPagesGo_eq_ok {bk : List Page} (h : bk ≠ []) :
    ∀ (content : List Page) (i : ℕ),
      stampPagesGo bk i content = .ok (stampedPages bk i content) := by
  intro content
  induction content with
  | nil => intro i; rfl
  | cons p rest ih =>
    intro i
    simp [stampPagesGo, stampedPages, getPage?_sel h, ih]

lemma stampPDFOnBriefhead_ok {bk : List Page} (content : List Page) (h : bk ≠ []) :
    stampPDFOnBriefhead (.pdf content) (.pdf bk) =
      .ok (.pdf (stampedPages bk 0 content)) := by
  show Buffer.pdf <$> stampPagesGo bk 0 content = _
  rw [stampPagesGo_eq_ok h]
  rfl

lemma stampPDFOnBriefhead_emptyBk (p : Page) (rest : List Page) :
    stampPDFOnBriefhead (.pdf (p :: rest)) (.pdf []) =
      .error "Briefkopf PDF does not have a page at index 0" := by
  simp [stampPDFOnBriefhead, loadPDF, stampPagesGo, getPage?, briefkopfPageIndex]
  rfl

/-! ## Basic facts about `round2` -/

lemma round2_intCast_div (n : ℤ) : round2 ((n : ℚ) / 100) = (n : ℚ) / 100 := by
  unfold round2
  have h : (n : ℚ) / 100 * 100 + 1 / 2 = (n : ℚ) + 1 / 2 := by ring
  rw [h]
  have h2 : ⌊(n : ℚ) + 1 / 2⌋ = n + ⌊(1 / 2 : ℚ)⌋ := Int.floor_int_add n (1 / 2)
  have h3 : ⌊(1 / 2 : ℚ)⌋ = 0 := by norm_num
  rw [h2, h3, add_zero]

lemma round2_mono {x y : ℚ} (h : x ≤ y) : round2 x ≤ round2 y := by
  unfold round2
  have hfl : ⌊x * 100 + 1 / 2⌋ ≤ ⌊y * 100 + 1 / 2⌋ := Int.floor_mono (by linarith)
  have : (⌊x * 100 + 1 / 2⌋ : ℚ) ≤ (⌊y * 100 + 1 / 2⌋ : ℚ) := by exact_mod_cast hfl
  linarith

/-- Rounding the 19% tax before adding it to a two-decimal pre-tax total
gives the same result as rounding the fused sum once: both equal
`(n + ⌊19n/100 + 1/2⌋) / 100`. -/
lemma round2_tax_split (n : ℤ) :
    round2 ((n : ℚ) / 100 + (n : ℚ) / 100 * (19 / 100)) =
      round2 ((n : ℚ) / 100 + round2 ((n : ℚ) / 100 * (19 / 100))) := by
  have h2 : round2 ((n : ℚ) / 100 * (19 / 100)) =
      (⌊(19 * n : ℚ) / 100 + 1 / 2⌋ : ℚ) / 100 := by
    unfold round2
    congr 2
    push_cast
    ring
  rw [h2]
  have h3 : (n : ℚ) / 100 + (⌊(19 * n : ℚ) / 100 + 1 / 2⌋ : ℚ) / 100 =
      ((n + ⌊(19 * n : ℚ) / 100 + 1 / 2⌋ : ℤ) : ℚ) / 100 := by
    push_cast
    ring
  rw [h3, round2_intCast_div]
  unfold round2
  have h4 : ((n : ℚ) / 100 + (n : ℚ) / 100 * (19 / 100)) * 100 + 1 / 2 =
      (n : ℚ) + ((19 * n : ℚ) / 100 + 1 / 2) := by
    push_cast
    ring
  rw [h4]
  rw [Int.floor_int_add]

/-! ## Unfolding lemmas for the calculator pipeline -/

lemma calculateFees_zkd (g e : ℚ) :
    (calculateFees g e).zweiKommaDreiGebuehr =
      round2 ((3539 + (bandFaktor g : ℚ) * 165) * 2.3) := rfl

/-- The calculation record produced for a parsed dispute value `w`. -/
def invoiceCalcOf (w : ℚ) : InvoiceCalculations :=
  performInvoiceCalculations (calculateFees w w) (calculateExpenses w)
    getCashExpenses (calculateDisputeValues w)

lemma cid_gebuehren (r : CSVRawData) :
    (calculateInvoiceData r).gebuehren =
      calculateFees (parseGermanNumber r.streitwertKlage)
        (parseGermanNumber r.streitwertKlage) := rfl

lemma cid_auslagen (r : CSVRawData) :
    (calculateInvoiceData r).auslagen =
      calculateExpenses (parseGermanNumber r.streitwertKlage) := rfl

lemma cid_barauslagen (r : CSVRawData) :
    (calculateInvoiceData r).barauslagen = getCashExpenses := rfl

lemma cid_gesamtRechnungsbetragOld (r : CSVRawData) :
    (calculateInvoiceData r).gesamtRechnungsbetragOld =
      (invoiceCalcOf (parseGermanNumber r.streitwertKlage)).gesamtRechnungsbetragOld := rfl

lemma cid_summe1 (r : CSVRawData) :
    (calculateInvoiceData r).summe1 =
      (invoiceCalcOf (parseGermanNumber r.streitwertKlage)).summe1 := rfl

lemma cid_summe3 (r : CSVRawData) :
    (calculateInvoiceData r).summe3 =
      (invoiceCalcOf (parseGermanNumber r.streitwertKlage)).summe3 := rfl

lemma cid_gesamtbetragNetto (r : CSVRawData) :
    (calculateInvoiceData r).gesamtbetragNetto =
      (invoiceCalcOf (parseGermanNumber r.streitwertKlage)).gesamtbetragNetto := rfl

lemma cid_mehrwertsteuer (r : CSVRawData) :
    (calculateInvoiceData r).mehrwertsteuer =
      (invoiceCalcOf (parseGermanNumber r.streitwertKlage)).mehrwertsteuer := rfl

lemma cid_gesamtbetragBrutto (r : CSVRawData) :
    (calculateInvoiceData r).gesamtbetragBrutto =
      (invoiceCalcOf (parseGermanNumber r.streitwertKlage)).gesamtbetragBrutto := rfl

lemma pic_gesamtRechnungsbetragOld (geb : Fees) (aus : Expenses)
    (bar : CashExpenses) (dv : DisputeValue) :
    (performInvoiceCalculations geb aus bar dv).gesamtRechnungsbetragOld =
      round2 (geb.zweiKommaDreiGebuehr + aus.pauschale) := rfl

lemma pic_summe1 (geb : Fees) (aus : Expenses) (bar : CashExpenses)
    (dv : DisputeValue) :
    (performInvoiceCalculations geb aus bar dv).summe1 =
      round2 geb.zweiKommaDreiGebuehr := rfl

lemma pic_summe3 (geb : Fees) (aus : Expenses) (bar : CashExpenses)
    (dv : DisputeValue) :
    (performInvoiceCalculations geb aus bar dv).summe3 =
      round2 (bar.kopien + bar.telekommunikation + bar.gerichtskosten) := rfl

lemma pic_gesamtbetragNetto (geb : Fees) (aus : Expenses) (bar : CashExpenses)
    (dv : DisputeValue) :
    (performInvoiceCalculations geb aus bar dv).gesamtbetragNetto =
      round2 (geb.zweiKommaDreiGebuehr + aus.pauschale + aus.erhoehungsgebuehrOld) := rfl

lemma pic_mehrwertsteuer (geb : Fees) (aus : Expenses) (bar : CashExpenses)
    (dv : DisputeValue) :
    (performInvoiceCalculations geb aus bar dv).mehrwertsteuer =
      round2 ((geb.zweiKommaDreiGebuehr + aus.pauschale + aus.erhoehungsgebuehrOld) *
        config.taxRate) := rfl

lemma pic_gesamtbetragBrutto (geb : Fees) (aus : Expenses) (bar : CashExpenses)
    (dv : DisputeValue) :
    (performInvoiceCalculations geb aus bar dv).gesamtbetragBrutto =
      round2 (geb.zweiKommaDreiGebuehr + aus.pauschale + aus.erhoehungsgebuehrOld +
        (geb.zweiKommaDreiGebuehr + aus.pauschale + aus.erhoehungsgebuehrOld) *
          config.taxRate) := rfl

/-- Exact band characterization of `Math.ceil((v - 500000) / 50000)`:
`band = k` on the half-open interval `(500000 + (k-1)·50000, 500000 + k·50000]`. -/
lemma bandFaktor_eq {v : ℚ} {k : ℤ}
    (h1 : 500000 + ((k : ℚ) - 1) * 50000 < v)
    (h2 : v ≤ 500000 + (k : ℚ) * 50000) : bandFaktor v = k := by
  unfold bandFaktor
  rw [Int.ceil_eq_iff]
  constructor
  · rw [lt_div_iff (by norm_num : (0 : ℚ) < 50000)]
    push_cast
    linarith
  · rw [div_le_iff (by norm_num : (0 : ℚ) < 50000)]
    push_cast
    linarith

/-- A concrete CSV row with the given dispute-value cell; the other cells
are empty strings / unparseable numbers. -/
def mkRecord (streitwert : NumStr) : CSVRawData :=
  { lfNr := "1"
    azTilp := ""
    anrede := ""
    vorname1 := ""
    nachname1 := ""
    anrede2 := ""
    vorname2 := ""
    nachname2 := ""
    anrede3 := ""
    vorname3 := ""
    nachname3 := ""
    strasse := ""
    plz := ""
    ort := ""
    land := ""
    streitwertKlage := streitwert
    gesamtstreitwert := .malformed
    gesamtrechnungsbetrag := .malformed
    anteil := .malformed
    einzelrechnungsbetrag := .malformed
    erhoehungsgebuehrCsv := .malformed
    zwischensumme := .malformed
    umsatzsteuer := .malformed
    summa := .malformed
    rechnungsnummer := "7"
    erbengemeinschaftZahl := ""
    erbengemeinschaftNamen := "" }

/-! ## Claim C1 -/

/-- C1, counterexample: at dispute value 600000 the code's banded fee is
`(3539 + 2·165)·2.3 = 8898.70`, not the `8578.90` the claim states (the
claim's own formula `(3539 + 2*165) * 2.3` evaluates to 8898.70, so its
reference figure is an arithmetic slip); consequently every downstream
figure of the claimed chain differs as well. -/
theorem c1_chain_600000_counterexample :
    (calculateInvoiceData (mkRecord (.parsed 600000))).gebuehren.zweiKommaDreiGebuehr ≠
      8578.90 ∧
    (calculateInvoiceData (mkRecord (.parsed 600000))).gesamtbetragBrutto ≠ 10708.43 := by
  rw [cid_gebuehren, calculateFees_zkd, cid_gesamtbetragBrutto]
  unfold invoiceCalcOf
  rw [pic_gesamtbetragBrutto]
  norm_num [mkRecord, parseGermanNumber, bandFaktor, round2, calculateFees,
    calculateExpenses, defaultCalculationValues, config]

/-- C1, amended: for dispute value 600000 the calculator's chain gives
band = 2, banded fee = 8898.70, pre-tax step 1 = 8898.70 + 20.00 =
8918.70, pre-tax total = 8918.70 + 399.78 = 9318.48, tax = 1770.51, and
post-tax total = 11088.99. -/
theorem c1_chain_600000 :
    bandFaktor 600000 = 2 ∧
    (calculateInvoiceData (mkRecord (.parsed 600000))).gebuehren.zweiKommaDreiGebuehr =
      8898.70 ∧
    (calculateInvoiceData (mkRecord (.parsed 600000))).auslagen.pauschale = 20.00 ∧
    (calculateInvoiceData (mkRecord (.parsed 600000))).auslagen.erhoehungsgebuehrOld =
      399.78 ∧
    (calculateInvoiceData (mkRecord (.parsed 600000))).gesamtRechnungsbetragOld =
      8918.70 ∧
    (calculateInvoiceData (mkRecord (.parsed 600000))).gesamtbetragNetto = 9318.48 ∧
    (calculateInvoiceData (mkRecord (.parsed 600000))).mehrwertsteuer = 1770.51 ∧
    (calculateInvoiceData (mkRecord (.parsed 600000))).gesamtbetragBrutto = 11088.99 := by
  rw [cid_gebuehren, calculateFees_zkd, cid_auslagen, cid_gesamtRechnungsbetragOld,
    cid_gesamtbetragNetto, cid_mehrwertsteuer, cid_gesamtbetragBrutto]
  unfold invoiceCalcOf
  rw [pic_gesamtRechnungsbetragOld, pic_gesamtbetragNetto, pic_mehrwertsteuer,
    pic_gesamtbetragBrutto]
  norm_num [mkRecord, parseGermanNumber, bandFaktor, round2, calculateFees,
    calculateExpenses, defaultCalculationValues, config]

/-! ## Claim C2 -/

/-- C2, counterexample: the code's band is `1`, not `0`, throughout
`(500000, 550000]` — at `v = 510000 ∈ [500000, 550000)` and at the
boundary `v = 550000` — and `v = 600000 ∈ (550000, 600000]` yields band
`2`, not `1`. -/
theorem c2_band_boundaries_counterexample :
    bandFaktor 550000 ≠ 0 ∧ bandFaktor 510000 ≠ 0 ∧ bandFaktor 600000 ≠ 1 := by
  norm_num [bandFaktor]

/-- C2, amended: the band intervals are half-open on the left: for
`v ∈ (450000, 500000]` the band is 0, for `v ∈ (500000, 550000]` it is 1,
and for `v ∈ (550000, 600000]` it is 2.  A value exactly at a band
boundary does not yet trigger the next band — `550000` is the last value
of band 1, and one cent above it starts band 2. -/
theorem c2_band_boundaries :
    (∀ v : ℚ, 450000 < v → v ≤ 500000 → bandFaktor v = 0) ∧
    (∀ v : ℚ, 500000 < v → v ≤ 550000 → bandFaktor v = 1) ∧
    (∀ v : ℚ, 550000 < v → v ≤ 600000 → bandFaktor v = 2) := by
  refine ⟨fun v h1 h2 => bandFaktor_eq ?_ ?_,
    fun v h1 h2 => bandFaktor_eq ?_ ?_,
    fun v h1 h2 => bandFaktor_eq ?_ ?_⟩ <;> push_cast <;> linarith

/-- Witness for C2: concrete values in each interval. -/
theorem c2_band_boundaries_witness :
    (450000 < (480000 : ℚ) ∧ (480000 : ℚ) ≤ 500000 ∧ bandFaktor 480000 = 0) ∧
    (500000 < (550000 : ℚ) ∧ (550000 : ℚ) ≤ 550000 ∧ bandFaktor 550000 = 1) ∧
    (550000 < (550000.01 : ℚ) ∧ (550000.01 : ℚ) ≤ 600000 ∧
      bandFaktor 550000.01 = 2) :=
  ⟨⟨by norm_num, by norm_num,
      c2_band_boundaries.1 480000 (by norm_num) (by norm_num)⟩,
    ⟨by norm_num, by norm_num,
      c2_band_boundaries.2.1 550000 (by norm_num) (by norm_num)⟩,
    ⟨by norm_num, by norm_num,
      c2_band_boundaries.2.2 550000.01 (by norm_num) (by norm_num)⟩⟩

/-! ## Claim C9 -/

/-- C9, counterexample: the claim says negative dispute values "produce
negative or zero fees"; but at dispute value `-1` (a well-typed, negative
input, accepted without any error) the banded fee is `4344.70 > 0`:
`ceil((-1 - 500000)/50000) = -10` and `(3539 - 10·165)·2.3 = 4344.70`. -/
theorem c9_total_counterexample :
    parseGermanNumber (mkRecord (.parsed (-1))).streitwertKlage = -1 ∧
    0 < (calculateInvoiceData (mkRecord (.parsed (-1)))).gebuehren.zweiKommaDreiGebuehr := by
  constructor
  · rfl
  · rw [cid_gebuehren, calculateFees_zkd]
    have hpar : parseGermanNumber (mkRecord (.parsed (-1))).streitwertKlage = -1 := rfl
    have hb : bandFaktor (-1 : ℚ) = -10 :=
      bandFaktor_eq (by norm_num) (by norm_num)
    rw [hpar, hb]
    norm_num [round2]

/-- C9, amended: the calculator is a total function — every record yields
a breakdown, negative and out-of-range dispute values included, with no
error path (throwing code is modelled by `Except`, and `calculateInvoiceData`
has none) — but the fee of a negative dispute value is not negative or
zero in general: the banded fee is negative exactly when the dispute value
is at most `-600000` (band ≤ −22, where `3539 + 165·band` turns negative);
above that, negative dispute values still produce positive fees. -/
theorem c9_total_fee_sign (r : CSVRawData) :
    (calculateInvoiceData r).gebuehren.zweiKommaDreiGebuehr < 0 ↔
      parseGermanNumber r.streitwertKlage ≤ -600000 := by
  rw [cid_gebuehren, calculateFees_zkd]
  set v := parseGermanNumber r.streitwertKlage with hv
  constructor
  · intro hneg
    by_contra hgt
    push_neg at hgt
    have hb : (-21 : ℤ) ≤ bandFaktor v := by
      have h22 : (-22 : ℤ) < bandFaktor v := by
        unfold bandFaktor
        rw [Int.lt_ceil]
        rw [lt_div_iff (by norm_num : (0 : ℚ) < 50000)]
        push_cast
        linarith
      omega
    have hbq : (-21 : ℚ) ≤ (bandFaktor v : ℚ) := by exact_mod_cast hb
    have hraw : (170.2 : ℚ) ≤ (3539 + (bandFaktor v : ℚ) * 165) * 2.3 := by
      nlinarith
    have hmono := round2_mono hraw
    have h170 : round2 (170.2 : ℚ) = 170.2 := by norm_num [round2]
    rw [h170] at hmono
    linarith
  · intro hle
    have hb : bandFaktor v ≤ -22 := by
      unfold bandFaktor
      rw [Int.ceil_le]
      rw [div_le_iff (by norm_num : (0 : ℚ) < 50000)]
      push_cast
      linarith
    have hbq : (bandFaktor v : ℚ) ≤ -22 := by exact_mod_cast hb
    have hraw : (3539 + (bandFaktor v : ℚ) * 165) * 2.3 ≤ -209.3 := by
      nlinarith
    have hmono := round2_mono hraw
    have h209 : round2 (-209.3 : ℚ) = -209.3 := by norm_num [round2]
    rw [h209] at hmono
    linarith

/-! ## Claim C3 -/

lemma exists_round2_int (x : ℚ) : ∃ n : ℤ, round2 x = (n : ℚ) / 100 :=
  ⟨⌊x * 100 + 1 / 2⌋, rfl⟩

/-- C3: for every input record the post-tax total satisfies
`gesamtbetragBrutto = round2 (preTax + round2 (preTax * 0.19))` with
`preTax` the exposed pre-tax total `gesamtbetragNetto`.  (The source
computes the gross total from the unrounded tax, but because the pre-tax
total always has exactly two decimals the two formulas provably coincide.) -/
theorem c3_tax_rounded_before_add (r : CSVRawData) :
    (calculateInvoiceData r).gesamtbetragBrutto =
      round2 ((calculateInvoiceData r).gesamtbetragNetto +
        round2 ((calculateInvoiceData r).gesamtbetragNetto * config.taxRate)) := by
  rw [cid_gesamtbetragBrutto, cid_gesamtbetragNetto]
  unfold invoiceCalcOf
  rw [pic_gesamtbetragBrutto, pic_gesamtbetragNetto]
  set w := parseGermanNumber r.streitwertKlage with hw
  obtain ⟨n1, h1⟩ := exists_round2_int ((3539 + (bandFaktor w : ℚ) * 165) * 2.3)
  obtain ⟨n2, h2⟩ :=
    exists_round2_int (defaultCalculationValues.verfahrensgebuehr * 0.3)
  have hfee : (calculateFees w w).zweiKommaDreiGebuehr = (n1 : ℚ) / 100 := by
    rw [calculateFees_zkd, h1]
  have herh : (calculateExpenses w).erhoehungsgebuehrOld = (n2 : ℚ) / 100 := by
    rw [show (calculateExpenses w).erhoehungsgebuehrOld =
      round2 (defaultCalculationValues.verfahrensgebuehr * 0.3) from rfl, h2]
  have hp : (calculateExpenses w).pauschale = 20 := by
    norm_num [calculateExpenses, defaultCalculationValues]
  have hS : (calculateFees w w).zweiKommaDreiGebuehr + (calculateExpenses w).pauschale +
      (calculateExpenses w).erhoehungsgebuehrOld = ((n1 + 2000 + n2 : ℤ) : ℚ) / 100 := by
    rw [hfee, herh, hp]
    push_cast
    ring
  have htax : config.taxRate = 19 / 100 := by norm_num [config]
  rw [hS, round2_intCast_div, htax]
  exact round2_tax_split (n1 + 2000 + n2)

/-! ## Claim C4 -/

/-- C4: the pre-tax total is accumulated in exactly two steps — the banded
fee (subtotal 1) plus the flat allowance first, then the surcharge added
to that result — and the cash-outlays subtotal `summe3` is computed and
exposed but never enters the pre-tax (or post-tax) total: replacing the
cash outlays (and the dispute-value record) leaves both totals unchanged. -/
theorem c4_pretax_two_steps (r : CSVRawData) (geb : Fees) (aus : Expenses)
    (bar bar2 : CashExpenses) (dv dv2 : DisputeValue) :
    (calculateInvoiceData r).gesamtRechnungsbetragOld =
      round2 ((calculateInvoiceData r).gebuehren.zweiKommaDreiGebuehr +
        (calculateInvoiceData r).auslagen.pauschale) ∧
    (calculateInvoiceData r).gesamtbetragNetto =
      round2 ((calculateInvoiceData r).gebuehren.zweiKommaDreiGebuehr +
        (calculateInvoiceData r).auslagen.pauschale +
        (calculateInvoiceData r).auslagen.erhoehungsgebuehrOld) ∧
    (calculateInvoiceData r).summe3 =
      round2 ((calculateInvoiceData r).barauslagen.kopien +
        (calculateInvoiceData r).barauslagen.telekommunikation +
        (calculateInvoiceData r).barauslagen.gerichtskosten) ∧
    (performInvoiceCalculations geb aus bar dv).gesamtbetragNetto =
      (performInvoiceCalculations geb aus bar2 dv2).gesamtbetragNetto ∧
    (performInvoiceCalculations geb aus bar dv).gesamtbetragBrutto =
      (performInvoiceCalculations geb aus bar2 dv2).gesamtbetragBrutto :=
  ⟨rfl, rfl, rfl, rfl, rfl⟩

/-! ## Claim C10 -/

/-- Source `validateInvoiceData` as a nested conditional: the first falsy field
in list order decides the error. -/
lemma validateInvoiceData_eq_ite (d : InvoiceData) :
    validateInvoiceData d =
      if d.name = "" then .error "Missing required field: name"
      else if d.strasse = "" then .error "Missing required field: strasse"
      else if d.plz = "" then .error "Missing required field: plz"
      else if d.ort = "" then .error "Missing required field: ort"
      else if d.gesamtbetragBrutto = 0 then
        .error "Missing required field: gesamtbetragBrutto"
      else if d.datum = "" then .error "Missing required field: datum"
      else .ok true := by
  unfold validateInvoiceData requiredFields
  by_cases h1 : d.name = ""
  · rw [List.find?_cons_of_pos _ (by simp [fieldTruthy, h1])]
    simp [h1]
  · rw [List.find?_cons_of_neg _ (by simp [fieldTruthy, h1])]
    by_cases h2 : d.strasse = ""
    · rw [List.find?_cons_of_pos _ (by simp [fieldTruthy, h2])]
      simp [h1, h2]
    · rw [List.find?_cons_of_neg _ (by simp [fieldTruthy, h2])]
      by_cases h3 : d.plz = ""
      · rw [List.find?_cons_of_pos _ (by simp [fieldTruthy, h3])]
        simp [h1, h2, h3]
      · rw [List.find?_cons_of_neg _ (by simp [fieldTruthy, h3])]
        by_cases h4 : d.ort = ""
        · rw [List.find?_cons_of_pos _ (by simp [fieldTruthy, h4])]
          simp [h1, h2, h3, h4]
        · rw [List.find?_cons_of_neg _ (by simp [fieldTruthy, h4])]
          by_cases h5 : d.gesamtbetragBrutto = 0
          · rw [List.find?_cons_of_pos _ (by simp [fieldTruthy, h5])]
            simp [h1, h2, h3, h4, h5]
          · rw [List.find?_cons_of_neg _ (by simp [fieldTruthy, h5])]
            by_cases h6 : d.datum = ""
            · rw [List.find?_cons_of_pos _ (by simp [fieldTruthy, h6])]
              simp [h1, h2, h3, h4, h5, h6]
            · rw [List.find?_cons_of_neg _ (by simp [fieldTruthy, h6])]
              simp [h1, h2, h3, h4, h5, h6, List.find?]

/-- C10: `validateInvoiceData` returns `ok true` exactly when the six
required fields `name`, `strasse`, `plz`, `ort`, `gesamtbetragBrutto`,
`datum` are all truthy, and otherwise throws an error naming the first
failing field in list order; in particular a gross total of exactly 0 is
rejected as a missing required field (when the four address fields are
present). -/
theorem c10_validate_required_fields (d : InvoiceData) :
    (validateInvoiceData d = .ok true ↔
      d.name ≠ "" ∧ d.strasse ≠ "" ∧ d.plz ≠ "" ∧ d.ort ≠ "" ∧
        d.gesamtbetragBrutto ≠ 0 ∧ d.datum ≠ "") ∧
    (d.name = "" → validateInvoiceData d = .error "Missing required field: name") ∧
    (d.name ≠ "" → d.strasse = "" →
      validateInvoiceData d = .error "Missing required field: strasse") ∧
    (d.name ≠ "" → d.strasse ≠ "" → d.plz = "" →
      validateInvoiceData d = .error "Missing required field: plz") ∧
    (d.name ≠ "" → d.strasse ≠ "" → d.plz ≠ "" → d.ort = "" →
      validateInvoiceData d = .error "Missing required field: ort") ∧
    (d.name ≠ "" → d.strasse ≠ "" → d.plz ≠ "" → d.ort ≠ "" →
      d.gesamtbetragBrutto = 0 →
      validateInvoiceData d = .error "Missing required field: gesamtbetragBrutto") ∧
    (d.name ≠ "" → d.strasse ≠ "" → d.plz ≠ "" → d.ort ≠ "" →
      d.gesamtbetragBrutto ≠ 0 → d.datum = "" →
      validateInvoiceData d = .error "Missing required field: datum") := by
  rw [validateInvoiceData_eq_ite]
  by_cases h1 : d.name = "" <;> by_cases h2 : d.strasse = "" <;>
    by_cases h3 : d.plz = "" <;> by_cases h4 : d.ort = "" <;>
    by_cases h5 : d.gesamtbetragBrutto = 0 <;> by_cases h6 : d.datum = "" <;>
    simp [h1, h2, h3, h4, h5, h6]

/-- A concrete invoice record for exercising `validateInvoiceData`; only
the validated fields vary. -/
def mkInvoice (name strasse plz ort datum : String) (brutto : ℚ) : InvoiceData :=
  { senderName := ""
    senderStreet := ""
    senderZipCity := ""
    ustId := ""
    iban := ""
    unterschrift := ""
    empfaengerAnrede := ""
    name := name
    strasse := strasse
    plz := plz
    ort := ort
    land := ""
    landName := none
    gesamtStreitwert := 0
    gesamtRechnungsbetrag := 0
    anteil := 0
    einzelRechnungsbetrag := 0
    erhoehungsgebuehr := 0
    zwischensumme := 0
    umsatzsteuer := 0
    summa := 0
    rechnungsNummer := ""
    datum := datum
    gzNumber := ""
    azTilp := none
    leistungszeit := ""
    mandant := ""
    partei1 := ""
    partei2 := ""
    lfNr := ""
    nachname1 := ""
    nachname2 := none
    nachname3 := none
    hasSecondRecipient := false
    hasThirdRecipient := false
    einzelStreitwert := 0
    gebuehren := ⟨0, 0, 0, 0⟩
    auslagen := ⟨0, 0⟩
    barauslagen := ⟨0, 0, 0⟩
    gesamtRechnungsbetragOld := 0
    proportionalerBetrag := 0
    erhoehungsgebuehrOld := 0
    summe1 := 0
    summe2 := 0
    summe3 := 0
    gesamtbetragNetto := 0
    mehrwertsteuer := 0
    gesamtbetragBrutto := brutto }

/-- Witness for C10: an invoice with all address fields present but a
gross total of exactly 0 is rejected naming `gesamtbetragBrutto`. -/
theorem c10_validate_required_fields_witness :
    ("Anna Muster" : String) ≠ "" ∧
    validateInvoiceData (mkInvoice "Anna Muster" "Weg 1" "76131" "Karlsruhe"
        "2. Januar 2026" 0) =
      .error "Missing required field: gesamtbetragBrutto" :=
  ⟨by decide,
    (c10_validate_required_fields
        (mkInvoice "Anna Muster" "Weg 1" "76131" "Karlsruhe" "2. Januar 2026" 0)).2.2.2.2.2.1
      (by decide) (by decide) (by decide) (by decide) rfl⟩

/-! ## Claim C5 -/

/-- C5: with a non-empty letterhead, composition succeeds and content page
`i` (0-indexed) is stamped onto the letterhead page at index `0` for
`i = 0` and at `min 1 (letterheadPageCount - 1)` otherwise; in particular
a 3-page content with a 2-page letterhead uses letterhead indices
`[0, 1, 1]`, and a 2-page content with a 1-page letterhead uses `[0, 0]`. -/
theorem c5_page_mapping :
    (∀ (content bk : List Page), bk ≠ [] →
      ∃ out, stampPDFOnBriefhead (.pdf content) (.pdf bk) = .ok (.pdf out) ∧
        out.length = content.length ∧
        ∀ i, i < content.length →
          out.getD i default =
            stampPage (bk.getD (if i = 0 then 0 else min 1 (bk.length - 1)) default)
              (content.getD i default)) ∧
    stampPDFOnBriefhead
        (.pdf [Page.base 595 842 10, Page.base 595 842 11, Page.base 595 842 12])
        (.pdf [Page.base 595 842 20, Page.base 595 842 21]) =
      .ok (.pdf [stampPage (Page.base 595 842 20) (Page.base 595 842 10),
        stampPage (Page.base 595 842 21) (Page.base 595 842 11),
        stampPage (Page.base 595 842 21) (Page.base 595 842 12)]) ∧
    stampPDFOnBriefhead (.pdf [Page.base 595 842 10, Page.base 595 842 11])
        (.pdf [Page.base 595 842 20]) =
      .ok (.pdf [stampPage (Page.base 595 842 20) (Page.base 595 842 10),
        stampPage (Page.base 595 842 20) (Page.base 595 842 11)]) := by
  refine ⟨fun content bk hbk => ⟨stampedPages bk 0 content,
    stampPDFOnBriefhead_ok content hbk, stampedPages_length bk content 0, ?_⟩, rfl, rfl⟩
  intro i hi
  have h := stampedPages_getD bk content 0 i hi
  simpa [bkIdxNat] using h

/-- Witness for C5: the general mapping applied to the 3-page/2-page
scenario. -/
theorem c5_page_mapping_witness :
    ([Page.base 595 842 20, Page.base 595 842 21] : List Page) ≠ [] ∧
    ∃ out,
      stampPDFOnBriefhead
          (.pdf [Page.base 595 842 10, Page.base 595 842 11, Page.base 595 842 12])
          (.pdf [Page.base 595 842 20, Page.base 595 842 21]) =
        .ok (.pdf out) ∧
      out.length = [Page.base 595 842 10, Page.base 595 842 11,
        Page.base 595 842 12].length ∧
      ∀ i, i < [Page.base 595 842 10, Page.base 595 842 11,
          Page.base 595 842 12].length →
        out.getD i default =
          stampPage
            ([Page.base 595 842 20, Page.base 595 842 21].getD
              (if i = 0 then 0 else
                min 1 ([Page.base 595 842 20, Page.base 595 842 21].length - 1))
              default)
            ([Page.base 595 842 10, Page.base 595 842 11,
              Page.base 595 842 12].getD i default) :=
  ⟨by simp,
    c5_page_mapping.1
      [Page.base 595 842 10, Page.base 595 842 11, Page.base 595 842 12]
      [Page.base 595 842 20, Page.base 595 842 21] (by simp)⟩

/-! ## Claim C6 -/

/-- C6: in the stamping path of `savePDF`, an absent letterhead file or a
letterhead whose bytes do not decode makes the saved output exactly the
generated content buffer, with no error escaping (`savePDF` is total). -/
theorem c6_passthrough (g b : Buffer) :
    savePDF g true none = g ∧
    ((∃ msg, loadPDF b = .error msg) → savePDF g true (some b) = g) := by
  constructor
  · rfl
  · rintro ⟨msg, hmsg⟩
    cases b with
    | pdf pages => simp [loadPDF] at hmsg
    | corrupt k => rfl

/-- Witness for C6: a corrupt letterhead buffer passes the generated
document through unchanged. -/
theorem c6_passthrough_witness :
    (∃ msg, loadPDF (Buffer.corrupt 0) = .error msg) ∧
    savePDF (Buffer.pdf [Page.base 595 842 0]) true (some (Buffer.corrupt 0)) =
      Buffer.pdf [Page.base 595 842 0] :=
  ⟨⟨"Failed to decode PDF document", rfl⟩,
    (c6_passthrough (Buffer.pdf [Page.base 595 842 0]) (Buffer.corrupt 0)).2
      ⟨"Failed to decode PDF document", rfl⟩⟩

/-! ## Claim C7 -/

/-- C7: the selected letterhead index can be missing after clamping only
when the letterhead has zero pages; in that case (for non-empty content)
`stampPDFOnBriefhead` throws and yields no output document at all, while
any non-empty letterhead composes every content page successfully
(all-or-nothing: the `Except` result is either one complete document or
one error). -/
theorem c7_zero_page_letterhead (content bk : List Page) :
    (bk = [] → content ≠ [] →
      ∃ msg, stampPDFOnBriefhead (.pdf content) (.pdf bk) = .error msg) ∧
    (bk ≠ [] →
      ∃ out, stampPDFOnBriefhead (.pdf content) (.pdf bk) = .ok (.pdf out) ∧
        out.length = content.length) := by
  constructor
  · intro hbk hc
    subst hbk
    match content, hc with
    | p :: rest, _ => exact ⟨_, stampPDFOnBriefhead_emptyBk p rest⟩
  · intro hbk
    exact ⟨stampedPages bk 0 content, stampPDFOnBriefhead_ok content hbk,
      stampedPages_length bk content 0⟩

/-- Witness for C7: a one-page content against a zero-page letterhead
fails with an error. -/
theorem c7_zero_page_letterhead_witness :
    (([] : List Page) = [] ∧ ([Page.base 595 842 0] : List Page) ≠ []) ∧
    ∃ msg, stampPDFOnBriefhead (.pdf [Page.base 595 842 0]) (.pdf []) = .error msg :=
  ⟨⟨rfl, by simp⟩,
    (c7_zero_page_letterhead [Page.base 595 842 0] []).1 rfl (by simp)⟩

/-! ## Claim C8 -/

/-- C8: with a non-empty letterhead the composed output has exactly as
many pages as the content and preserves the content's page order — output
page `i` is content page `i` stamped onto a letterhead background — and
re-composing the composed output with the same letterhead again yields
the same page count and order: the content page count is never doubled or
halved. -/
theorem c8_page_count_idempotent (content bk : List Page) (hbk : bk ≠ []) :
    ∃ out out2,
      stampPDFOnBriefhead (.pdf content) (.pdf bk) = .ok (.pdf out) ∧
      out.length = content.length ∧
      (∀ i, i < content.length →
        ∃ bg, out.getD i default = stampPage bg (content.getD i default)) ∧
      stampPDFOnBriefhead (.pdf out) (.pdf bk) = .ok (.pdf out2) ∧
      out2.length = out.length ∧
      (∀ i, i < out.length →
        ∃ bg, out2.getD i default = stampPage bg (out.getD i default)) :=
  ⟨stampedPages bk 0 content, stampedPages bk 0 (stampedPages bk 0 content),
    stampPDFOnBriefhead_ok content hbk, stampedPages_length bk content 0,
    fun i hi => ⟨bk.getD (bkIdxNat (0 + i) bk.length) default,
      stampedPages_getD bk content 0 i hi⟩,
    stampPDFOnBriefhead_ok (stampedPages bk 0 content) hbk,
    stampedPages_length bk (stampedPages bk 0 content) 0,
    fun i hi => ⟨bk.getD (bkIdxNat (0 + i) bk.length) default,
      stampedPages_getD bk (stampedPages bk 0 content) 0 i hi⟩⟩

/-- Witness for C8: a 2-page content with a 1-page letterhead keeps two
pages in content order through a first and a second composition. -/
theorem c8_page_count_idempotent_witness :
    ([Page.base 595 842 9] : List Page) ≠ [] ∧
    ∃ out out2,
      stampPDFOnBriefhead (.pdf [Page.base 595 842 1, Page.base 595 842 2])
          (.pdf [Page.base 595 842 9]) = .ok (.pdf out) ∧
      out.length = [Page.base 595 842 1, Page.base 595 842 2].length ∧
      (∀ i, i < [Page.base 595 842 1, Page.base 595 842 2].length →
        ∃ bg, out.getD i default =
          stampPage bg ([Page.base 595 842 1, Page.base 595 842 2].getD i default)) ∧
      stampPDFOnBriefhead (.pdf out) (.pdf [Page.base 595 842 9]) = .ok (.pdf out2) ∧
      out2.length = out.length ∧
      (∀ i, i < out.length →
        ∃ bg, out2.getD i default = stampPage bg (out.getD i default)) :=
  ⟨by simp,
    c8_page_count_idempotent [Page.base 595 842 1, Page.base 595 842 2]
      [Page.base 595 842 9] (by simp)⟩

end CsvToPdf
